import Mathlib

/-!
Verification of the proximity-based labeling logic of the track
infrastructure recognition scripts.

The source (`code2.py`) classifies each GPS sample by scanning a list of
infrastructure reference rows in order and returning the category of the
first row whose geodesic distance is at most a threshold; it then pairs
vibration segments with GPS labels positionally, and a plot callback
clamps a clicked point index into the segment array's bounds.

The geodesic distance is computed by the external geopy library; the
labeling logic only ever compares its result against the threshold, so
the distance is embedded as an explicit oracle parameter
`dist : GeoPoint → GeoPoint → ℚ`, and coordinates and distances are
rationals (the finite floats of the source).
-/

/-- A GPS coordinate pair, latitude and longitude in degrees. -/
structure GeoPoint where
  lat : ℚ
  lon : ℚ
  deriving DecidableEq

/-- One row of `df_infra`: a fixed infrastructure feature position plus
its category string ("Bridge", "RailJoint" or "Turnout"). -/
structure ReferencePoint where
  pos : GeoPoint
  category : String
  deriving DecidableEq

/-- The function `classify_gps_point` (`code2.py` lines 75-80): iterate
over the infrastructure rows in order; return the `Category` of the
first row whose distance to `(lat, lon)` is at most `threshold_meters`,
and "Other" when no row qualifies.  Here `dist` is the geodesic-distance
oracle, standing for the call
`geodesic((lat, lon), (row_lat, row_lon)).meters`. -/
def classify_gps_point (dist : GeoPoint → GeoPoint → ℚ) (p : GeoPoint)
    (infra : List ReferencePoint) (threshold : ℚ) : String :=
  match infra with
  | [] => "Other"
  | r :: rs =>
      if dist p r.pos ≤ threshold then r.category
      else classify_gps_point dist p rs threshold

/-- The labeling pass (`code2.py` lines 82-84): apply
`classify_gps_point` to every GPS row. -/
def label_pass (dist : GeoPoint → GeoPoint → ℚ) (queries : List GeoPoint)
    (infra : List ReferencePoint) (threshold : ℚ) : List String :=
  queries.map (fun q => classify_gps_point dist q infra threshold)

/-- Index of the first reference row accepted by the scan in
`classify_gps_point`.  When no row is accepted this equals
`infra.length`, i.e. one position past the end of the list. -/
def firstMatchIdx (dist : GeoPoint → GeoPoint → ℚ) (p : GeoPoint)
    (infra : List ReferencePoint) (threshold : ℚ) : ℕ :=
  match infra with
  | [] => 0
  | r :: rs =>
      if dist p r.pos ≤ threshold then 0
      else firstMatchIdx dist p rs threshold + 1

/-- Line 113 of `code2.py`:
`segment_labels = gps_labels[:len(vib_segments)]`. -/
def segment_labels (gps_labels : List String) (n_segments : ℕ) : List String :=
  gps_labels.take n_segments

/-- The value returned by the `update_vibration` callback: either the
unchanged empty vibration figure, or a plot of one segment titled with
the (clamped) point index and the clicked point's label. -/
inductive VibFigure (Seg : Type) where
  | empty : VibFigure Seg
  | plot (index : ℕ) (label : String) (segment : Seg) : VibFigure Seg
  deriving DecidableEq

/-- The callback `update_vibration` (`code2.py` lines 163-181): on no
click data or an empty segment array, return the empty figure; otherwise
clamp the clicked point's index with `min(index, vib_segments.shape[0] - 1)`
and plot the segment at the clamped index.  `clickData` carries the
`customdata` pair `(PointIndex, Label)`; the segment contents are opaque
to the callback's control flow, hence the type parameter `Seg`. -/
def update_vibration {Seg : Type} (clickData : Option (ℕ × String))
    (vib_segments : List Seg) : VibFigure Seg :=
  match clickData with
  | none => VibFigure.empty
  | some (index, label) =>
      if h : vib_segments.length = 0 then VibFigure.empty
      else
        VibFigure.plot (min index (vib_segments.length - 1)) label
          (vib_segments.get ⟨min index (vib_segments.length - 1), by omega⟩)

/-- Written from the spec sentence "the Category of the nearest
ReferencePoint within threshold, or a sentinel Other value if none
qualifies": among the rows within the threshold, take the one of minimum
distance (the first such row on ties).  Stated only to compare against
`classify_gps_point`. -/
def nearest_label (dist : GeoPoint → GeoPoint → ℚ) (p : GeoPoint)
    (infra : List ReferencePoint) (threshold : ℚ) : String :=
  match infra.filter (fun r => decide (dist p r.pos ≤ threshold)) with
  | [] => "Other"
  | r :: rs =>
      (rs.foldl (fun best c => if dist p c.pos < dist p best.pos then c else best)
        r).category

/-- Infrastructure rows used for concrete instantiations: a "Bridge" row
followed by a "Turnout" row. -/
def cexInfra : List ReferencePoint := [⟨⟨0, 1⟩, "Bridge"⟩, ⟨⟨0, 2⟩, "Turnout"⟩]

/-- A concrete distance oracle: 10 meters to the "Bridge" row's
position, 5 meters to the "Turnout" row's position, one thousand
kilometers to anything else (such a configuration is realisable with
actual geodesic distances).  The later row of `cexInfra` is strictly
closer than the earlier one. -/
def nearDist (_p q : GeoPoint) : ℚ :=
  if q = ⟨0, 1⟩ then 10 else if q = ⟨0, 2⟩ then 5 else 1000000

/-- A constant distance oracle of about the geodesic distance between
(51, 9) and (50, 8), roughly 131 km, far above any threshold used. -/
def farDist (_p _q : GeoPoint) : ℚ := 131000

/-- A constant distance oracle of 7 meters. -/
def constDist7 (_p _q : GeoPoint) : ℚ := 7

/-- An oracle agreeing with `constDist7` on the rows of `cexInfra` but
differing elsewhere. -/
def altDist (_p q : GeoPoint) : ℚ := if q = ⟨9, 9⟩ then 3 else 7

/-- C3: with an empty reference set, `classify_gps_point` returns
"Other", and hence a labeling pass over any query list labels every
point "Other". -/
theorem classify_empty_infra (dist : GeoPoint → GeoPoint → ℚ) (p : GeoPoint)
    (t : ℚ) (qs : List GeoPoint) :
    classify_gps_point dist p [] t = "Other" ∧
    label_pass dist qs [] t = qs.map (fun _ => "Other") := by
  refine ⟨rfl, ?_⟩
  simp [label_pass, classify_gps_point]

/-- C2: when no reference row is within the threshold, the scan in
`classify_gps_point` falls through every row and returns "Other". -/
theorem classify_no_match (dist : GeoPoint → GeoPoint → ℚ) (p : GeoPoint)
    (infra : List ReferencePoint) (t : ℚ)
    (hfar : ∀ r ∈ infra, ¬ dist p r.pos ≤ t) :
    classify_gps_point dist p infra t = "Other" := by
  induction infra with
  | nil => rfl
  | cons r rs ih =>
      have hr : ¬ dist p r.pos ≤ t := hfar r (List.mem_cons_self r rs)
      simp only [classify_gps_point, if_neg hr]
      exact ih fun s hs => hfar s (List.mem_cons_of_mem r hs)

/-- Witness for C2, the spec's concrete scenario: one "RailJoint" row at
(50, 8), the query at (51, 9), threshold 15 m; the distance (about
131 km) is far above 15 m, so the label is "Other". -/
theorem classify_no_match_witness :
    classify_gps_point farDist ⟨51, 9⟩ [⟨⟨50, 8⟩, "RailJoint"⟩] 15 = "Other" :=
  classify_no_match farDist ⟨51, 9⟩ [⟨⟨50, 8⟩, "RailJoint"⟩] 15 (by decide)

/-- C1: if some reference row is within the threshold, then
`classify_gps_point` returns the category of the first such row in
iteration order, whatever the distances of the later rows are. -/
theorem classify_first_match (dist : GeoPoint → GeoPoint → ℚ) (p : GeoPoint)
    (infra : List ReferencePoint) (t : ℚ) (i : ℕ) (hi : i < infra.length)
    (hit : dist p (infra.get ⟨i, hi⟩).pos ≤ t)
    (hfirst : ∀ j (hj : j < infra.length), j < i → ¬ dist p (infra.get ⟨j, hj⟩).pos ≤ t) :
    classify_gps_point dist p infra t = (infra.get ⟨i, hi⟩).category := by
  induction infra generalizing i with
  | nil => exact absurd hi (Nat.not_lt_zero i)
  | cons r rs ih =>
      cases i with
      | zero =>
          simp only [List.get] at hit ⊢
          simp [classify_gps_point, hit]
      | succ n =>
          have hr : ¬ dist p r.pos ≤ t := by
            have h0 := hfirst 0 (Nat.succ_pos _) (Nat.succ_pos n)
            simpa using h0
          simp only [classify_gps_point, if_neg hr]
          exact ih n (Nat.lt_of_succ_lt_succ hi) hit fun j hj hlt => by
            have hj1 := hfirst (j + 1) (Nat.succ_lt_succ hj) (Nat.succ_lt_succ hlt)
            simpa using hj1

/-- Witness for C1: the "Bridge" row comes first and is within the 15 m
threshold, so it wins even though the later "Turnout" row is strictly
closer (5 m versus 10 m). -/
theorem classify_first_match_witness :
    classify_gps_point nearDist ⟨0, 0⟩ cexInfra 15 = "Bridge" :=
  classify_first_match nearDist ⟨0, 0⟩ cexInfra 15 0 (by decide) (by decide)
    fun j _hj hlt => absurd hlt (Nat.not_lt_zero j)

/-- C4: a larger threshold accepts every row the smaller one accepts, so
the first accepted index can only move towards the front of the list
(with a failed scan counted as index `infra.length`, past the end). -/
theorem firstMatchIdx_mono (dist : GeoPoint → GeoPoint → ℚ) (p : GeoPoint)
    (infra : List ReferencePoint) (t1 t2 : ℚ) (h : t1 ≤ t2) :
    firstMatchIdx dist p infra t2 ≤ firstMatchIdx dist p infra t1 := by
  induction infra with
  | nil => exact le_refl 0
  | cons r rs ih =>
      by_cases h2 : dist p r.pos ≤ t2
      · simp [firstMatchIdx, h2]
      · have h1 : ¬ dist p r.pos ≤ t1 := fun hle => h2 (le_trans hle h)
        simp only [firstMatchIdx, if_neg h1, if_neg h2]
        exact Nat.succ_le_succ ih

/-- Witness for C4: at threshold 6 m only the second row of `cexInfra`
qualifies, at threshold 12 m the first one already does; the first-match
index at the larger threshold is not larger. -/
theorem firstMatchIdx_mono_witness :
    firstMatchIdx nearDist ⟨0, 0⟩ cexInfra 12 ≤ firstMatchIdx nearDist ⟨0, 0⟩ cexInfra 6 :=
  firstMatchIdx_mono nearDist ⟨0, 0⟩ cexInfra 6 12 (by decide)

/-- Amended C5: the returned label is determined by the FIRST reference
row within the threshold in iteration order (not the nearest): the
result of `classify_gps_point` is the category at `firstMatchIdx`, and
"Other" when that index is past the end. -/
theorem classify_eq_firstMatch (dist : GeoPoint → GeoPoint → ℚ) (p : GeoPoint)
    (infra : List ReferencePoint) (t : ℚ) :
    classify_gps_point dist p infra t =
      ((infra.get? (firstMatchIdx dist p infra t)).map ReferencePoint.category).getD
        "Other" := by
  induction infra with
  | nil => rfl
  | cons r rs ih =>
      by_cases hd : dist p r.pos ≤ t
      · simp [classify_gps_point, firstMatchIdx, hd]
      · simpa [classify_gps_point, firstMatchIdx, hd] using ih

/-- Counterexample to C5 as stated: with both rows of `cexInfra` within
the 15 m threshold and the second row strictly closer, the code returns
the first row's category "Bridge", while the nearest-within-threshold
category is "Turnout". -/
theorem classify_not_nearest_cex :
    nearDist ⟨0, 0⟩ ⟨0, 2⟩ < nearDist ⟨0, 0⟩ ⟨0, 1⟩ ∧
    nearDist ⟨0, 0⟩ ⟨0, 1⟩ ≤ 15 ∧
    classify_gps_point nearDist ⟨0, 0⟩ cexInfra 15 = "Bridge" ∧
    nearest_label nearDist ⟨0, 0⟩ cexInfra 15 = "Turnout" ∧
    ("Bridge" : String) ≠ "Turnout" := by decide

/-- C6: segment labels pair positionally and truncate: the paired list
has length `min n |L|`, position `i < min |L| n` carries label `L[i]`,
and positions from `min n |L|` on carry no label (trailing segments stay
unlabeled, trailing labels are dropped). -/
theorem segment_labels_positional (L : List String) (n : ℕ) :
    (segment_labels L n).length = min n L.length ∧
    (∀ i, i < min L.length n → (segment_labels L n).get? i = L.get? i) ∧
    (∀ i, min n L.length ≤ i → (segment_labels L n).get? i = none) := by
  refine ⟨List.length_take n L, fun i hi => ?_, fun i hi => ?_⟩
  · rw [segment_labels, List.get?_eq_getElem?, List.get?_eq_getElem?]
    exact List.getElem?_take_of_lt (lt_of_lt_of_le hi (min_le_right _ _))
  · exact List.get?_eq_none.2 (le_trans (le_of_eq (List.length_take n L)) hi)

/-- Witness for C6, the spec's scenario of 5 labels and 7 segments:
position 2 carries the third label and position 5 carries none. -/
theorem segment_labels_positional_witness :
    (segment_labels ["A", "B", "B", "C", "A"] 7).get? 2 =
      (["A", "B", "B", "C", "A"] : List String).get? 2 ∧
    (segment_labels ["A", "B", "B", "C", "A"] 7).get? 5 = none :=
  ⟨(segment_labels_positional ["A", "B", "B", "C", "A"] 7).2.1 2 (by decide),
   (segment_labels_positional ["A", "B", "B", "C", "A"] 7).2.2 5 (by decide)⟩

/-- C7: `classify_gps_point` is total and returns either "Other" or the
category of one of the reference rows; no other outcome (and no error
branch) exists. -/
theorem classify_total (dist : GeoPoint → GeoPoint → ℚ) (p : GeoPoint)
    (infra : List ReferencePoint) (t : ℚ) :
    classify_gps_point dist p infra t = "Other" ∨
      ∃ r ∈ infra, classify_gps_point dist p infra t = r.category := by
  induction infra with
  | nil => exact Or.inl rfl
  | cons r rs ih =>
      by_cases hd : dist p r.pos ≤ t
      · exact Or.inr ⟨r, List.mem_cons_self r rs, by simp [classify_gps_point, hd]⟩
      · rcases ih with h | ⟨s, hs, he⟩
        · exact Or.inl (by simp [classify_gps_point, hd, h])
        · exact Or.inr ⟨s, List.mem_cons_of_mem r hs,
            by simp [classify_gps_point, hd, he]⟩

/-- C8: the label depends only on the values consulted: two distance
oracles that agree on the query point against every reference row
produce the same label, so repeated invocations on equal inputs agree
and no hidden state can influence the result. -/
theorem classify_congr (dist1 dist2 : GeoPoint → GeoPoint → ℚ) (p : GeoPoint)
    (infra : List ReferencePoint) (t : ℚ)
    (h : ∀ r ∈ infra, dist1 p r.pos = dist2 p r.pos) :
    classify_gps_point dist1 p infra t = classify_gps_point dist2 p infra t := by
  induction infra with
  | nil => rfl
  | cons r rs ih =>
      have hr := h r (List.mem_cons_self r rs)
      by_cases hd : dist2 p r.pos ≤ t
      · simp [classify_gps_point, hr, hd]
      · simp only [classify_gps_point, hr, if_neg hd]
        exact ih fun s hs => h s (List.mem_cons_of_mem r hs)

/-- Witness for C8: `constDist7` and `altDist` agree on both rows of
`cexInfra`, so the labels agree. -/
theorem classify_congr_witness :
    classify_gps_point constDist7 ⟨0, 0⟩ cexInfra 15 =
      classify_gps_point altDist ⟨0, 0⟩ cexInfra 15 :=
  classify_congr constDist7 altDist ⟨0, 0⟩ cexInfra 15 (by decide)

/-- C10: when the clicked point's index is at least the number of
segments (and segments exist), the callback clamps the index to the last
segment and plots that segment; the list access is within bounds by
construction. -/
theorem update_vibration_clamp {Seg : Type} (segs : List Seg) (index : ℕ)
    (lbl : String) (h0 : segs.length ≠ 0) (hidx : segs.length ≤ index) :
    update_vibration (some (index, lbl)) segs =
      VibFigure.plot (segs.length - 1) lbl
        (segs.get ⟨segs.length - 1, Nat.sub_lt (Nat.pos_of_ne_zero h0) Nat.one_pos⟩) := by
  have hmin : min index (segs.length - 1) = segs.length - 1 := by omega
  simp only [update_vibration, dif_neg h0, hmin]

/-- Witness for C10: two segments, clicked index 5: the callback shows
the last segment, index 1. -/
theorem update_vibration_clamp_witness :
    update_vibration (some (5, "Bridge")) ([10, 20] : List ℕ) =
      VibFigure.plot 1 "Bridge" 20 :=
  update_vibration_clamp ([10, 20] : List ℕ) 5 "Bridge" (by decide) (by decide)
